import Mathlib

/-!
Shallow embedding of `src/process_csv.py` (SolanaVersionProcessor): the
record data model, the validator, the Dockerfile content/path generator,
and the write phase, together with theorems settling the spec claims.
-/

set_option autoImplicit false
set_option maxRecDepth 100000

namespace ProcessCsv

/-- One CSV row, as produced by the loader: a partial mapping from the four
field names the program uses to string values.  `none` models a key that is
absent from the row's dictionary. -/
structure VersionRecord where
  version : Option String
  dockerfile_path : Option String
  base_image : Option String
  additional_deps : Option String

/-- Python truthiness of an optional string field, as used by
`if field not in version_data or not version_data[field]` (line 40):
absent keys and empty strings are falsy. -/
def pyTruthy : Option String → Bool
  | none => false
  | some s => !(s == "")

/-- ASCII whitespace stripped by Python's `int` before parsing. -/
def isPyWs (c : Char) : Bool :=
  c == ' ' || c == '\t' || c == '\n' || c == '\r' || c == '\x0b' || c == '\x0c'

/-- Strip `isPyWs` characters from both ends of a character list. -/
def stripChars (cs : List Char) : List Char :=
  ((cs.dropWhile isPyWs).reverse.dropWhile isPyWs).reverse

/-- After a first digit, Python's integer literal grammar allows further
digits with single underscores only between digits. -/
def pyDigitsTail : List Char → Bool
  | [] => true
  | '_' :: rest =>
    match rest with
    | [] => false
    | c :: cs => c.isDigit && pyDigitsTail cs
  | c :: cs => c.isDigit && pyDigitsTail cs

/-- A nonempty digit sequence with single underscores between digits. -/
def pyDigitsCore : List Char → Bool
  | [] => false
  | c :: cs => c.isDigit && pyDigitsTail cs

/-- Whether Python's `int(part)` (line 60) succeeds on the given
characters: optional surrounding whitespace, an optional sign, then a
nonempty digit sequence (underscores allowed between digits). -/
def pyIntParseable (part : List Char) : Bool :=
  match stripChars part with
  | '+' :: rest => pyDigitsCore rest
  | '-' :: rest => pyDigitsCore rest
  | cs => pyDigitsCore cs

/-- Python's `version.split('.')` (line 54): split the characters on the
dot separator; the accumulator holds the current part reversed.  Empty
parts are kept, and splitting the empty string yields one empty part. -/
def pySplitDot : List Char → List Char → List (List Char)
  | [], cur => [cur.reverse]
  | c :: cs, cur =>
    if c == '.' then cur.reverse :: pySplitDot cs []
    else pySplitDot cs (c :: cur)

/-- `_is_valid_version_format` (lines 52-63): split on '.', require exactly
3 parts, each of which `int` can parse. -/
def is_valid_version_format (version : String) : Bool :=
  let parts := pySplitDot version.data []
  if parts.length ≠ 3 then false
  else parts.all (fun p => pyIntParseable p)

/-- The per-record body of the `validate_versions` loop (lines 38-48):
both required fields present and truthy, and the version well-formed. -/
def record_valid (r : VersionRecord) : Bool :=
  pyTruthy r.version && pyTruthy r.dockerfile_path &&
    (match r.version with
     | some v => is_valid_version_format v
     | none => false)

/-- `validate_versions` (lines 34-50): returns `false` at the first invalid
record, `true` when every record passes. -/
def validate_versions : List VersionRecord → Bool
  | [] => true
  | r :: rs => if record_valid r then validate_versions rs else false

/-- The output path computed at line 72: `f"docker/v{version}.Dockerfile"`. -/
def dockerfilePath (version : String) : String :=
  "docker/v" ++ version ++ ".Dockerfile"

/-- The f-string template of `_generate_dockerfile_content` (lines 83-105),
with its three substitution points. -/
def dockerfileTemplate (base_image version additional_deps : String) : String :=
  "FROM " ++ base_image
    ++ "\n\n# Install Solana CLI version " ++ version
    ++ "\nRUN apt-get update && apt-get install -y \\\n    curl \\\n    build-essential \\\n    pkg-config \\\n    libudev-dev \\\n    && rm -rf /var/lib/apt/lists/*\n\n# Install Rust\nRUN curl --proto \x27=https\x27 --tlsv1.2 -sSf https://sh.rustup.rs | sh -s -- -y\nENV PATH=\"/root/.cargo/bin:$\x7bPATH\x7d\"\n\n# Install Solana CLI\nRUN sh -c \"$(curl -sSfL https://release.solana.com/v" ++ version
    ++ "/install)\"\nENV PATH=\"/root/.local/share/solana/install/active_release/bin:$\x7bPATH\x7d\"\n\n# Install additional dependencies if specified\n" ++ additional_deps
    ++ "\n\nWORKDIR /workspace\n"

/-- `_generate_dockerfile_content` (lines 77-106).  `version_data['version']`
raises `KeyError` when the key is absent (modelled as `none`); `base_image`
and `additional_deps` use `.get` with defaults `"ubuntu:20.04"` and `""`. -/
def generate_dockerfile_content (r : VersionRecord) : Option String :=
  match r.version with
  | none => none
  | some version =>
    some (dockerfileTemplate (r.base_image.getD "ubuntu:20.04") version
      (r.additional_deps.getD ""))

/-- Python `dict` assignment `d[k] = v`: replace the value at an existing
key in place, otherwise append the new binding at the end. -/
def upsert : List (String × String) → String → String → List (String × String)
  | [], k, v => [(k, v)]
  | (k', v') :: m, k, v =>
    if k' = k then (k, v) :: m else (k', v') :: upsert m k v

/-- Python `dict` lookup `d[k]` as an option. -/
def lookupAssoc : List (String × String) → String → Option String
  | [], _ => none
  | (k', v') :: m, k => if k' = k then some v' else lookupAssoc m k

/-- The loop of `generate_dockerfiles` (lines 69-74), threading the
`dockerfiles` dict; `none` models the `KeyError` raised by
`version_data['version']` on a record with no version. -/
def genAux : List (String × String) → List VersionRecord → Option (List (String × String))
  | acc, [] => some acc
  | acc, r :: rs =>
    match r.version with
    | none => none
    | some version =>
      match generate_dockerfile_content r with
      | none => none
      | some content => genAux (upsert acc (dockerfilePath version) content) rs

/-- `generate_dockerfiles` (lines 65-75): mapping from output path to
Dockerfile content, built in input order. -/
def generate_dockerfiles (rs : List VersionRecord) : Option (List (String × String)) :=
  genAux [] rs

/-- Observable effect of `write_dockerfiles` (lines 108-122): the directory
created from its `output_dir` argument, and the files written — one per
entry of the generated mapping, at the mapping's own key as the path.
`files = none` models the run aborting inside `generate_dockerfiles`
before any file is written. -/
structure WriteOutcome where
  created_dir : String
  files : Option (List (String × String))

/-- `write_dockerfiles` (lines 108-122). Note line 116: the file is opened
at `Path(dockerfile_path)`, i.e. at the mapping key itself; `output_dir`
is only used for the `mkdir` at line 111. -/
def write_dockerfiles (rs : List VersionRecord) (output_dir : String) : WriteOutcome :=
  { created_dir := output_dir, files := generate_dockerfiles rs }

/-- `main` (lines 124-145) after a successful `read_csv`: validation gates
the write phase; `none` models `sys.exit(1)` before any write. -/
def main_process (rs : List VersionRecord) : Option WriteOutcome :=
  if validate_versions rs then some (write_dockerfiles rs "docker") else none

/-- Boolean string-prefix test, on the underlying character lists. -/
def strStartsWith (p s : String) : Bool :=
  p.data.isPrefixOf s.data

/-- Number of positions of `hay` at which `needle` occurs as a substring. -/
def countOccur (needle : List Char) : List Char → Nat
  | [] => if needle.isPrefixOf [] then 1 else 0
  | c :: rest => (if needle.isPrefixOf (c :: rest) then 1 else 0) + countOccur needle rest

/-- Specification-side description of the final mapping: the content
generated from the LAST record of `rs` whose derived output path is `p`
(the later records are consulted first), `none` when no record derives
`p`.  Used to state the last-write-wins invariant of the spec. -/
def lastGeneratedContent : List VersionRecord → String → Option String
  | [], _ => none
  | r :: rs, p =>
    match lastGeneratedContent rs p with
    | some c => some c
    | none =>
      match r.version with
      | none => none
      | some v => if dockerfilePath v = p then generate_dockerfile_content r else none

/-! ### List-prefix lemmas -/

theorem isPrefixOf_append_self (l t : List Char) : l.isPrefixOf (l ++ t) = true := by
  induction l with
  | nil => simp [List.isPrefixOf]
  | cons c cs ih => simp [List.isPrefixOf, ih]

theorem isPrefixOf_append_of_isPrefixOf {l a : List Char} (t : List Char)
    (h : l.isPrefixOf a = true) : l.isPrefixOf (a ++ t) = true := by
  induction l generalizing a with
  | nil => simp [List.isPrefixOf]
  | cons c cs ih =>
    cases a with
    | nil => simp [List.isPrefixOf] at h
    | cons b bs =>
      simp only [List.isPrefixOf, Bool.and_eq_true, beq_iff_eq] at h
      simp only [List.cons_append, List.isPrefixOf, Bool.and_eq_true, beq_iff_eq]
      exact ⟨h.1, ih h.2⟩

theorem startsWith_dockerfilePath (v : String) :
    strStartsWith "docker/" (dockerfilePath v) = true := by
  have hsplit : ("docker/v" : String) = "docker/" ++ "v" := by decide
  have hdata : (dockerfilePath v).data =
      ("docker/".data ++ "v".data) ++ (v.data ++ ".Dockerfile".data) := by
    simp [dockerfilePath, hsplit, String.data_append]
  unfold strStartsWith
  rw [hdata, List.append_assoc]
  exact isPrefixOf_append_of_isPrefixOf _ (isPrefixOf_append_self _ _)

/-! ### Validator lemmas -/

theorem record_valid_iff (r : VersionRecord) :
    record_valid r = true ↔
      ∃ v d, r.version = some v ∧ v ≠ "" ∧ r.dockerfile_path = some d ∧ d ≠ "" ∧
        (pySplitDot v.data []).length = 3 ∧
        ∀ p ∈ pySplitDot v.data [], pyIntParseable p = true := by
  cases hv : r.version with
  | none => simp [record_valid, pyTruthy, hv]
  | some v =>
    cases hd : r.dockerfile_path with
    | none => simp [record_valid, pyTruthy, hv, hd]
    | some d =>
      by_cases h3 : (pySplitDot v.data []).length = 3
      · simp [record_valid, pyTruthy, hv, hd, is_valid_version_format, h3,
          List.all_eq_true, and_assoc]
      · simp [record_valid, pyTruthy, hv, hd, is_valid_version_format, h3]

theorem validate_eq_true_iff (rs : List VersionRecord) :
    validate_versions rs = true ↔ ∀ r ∈ rs, record_valid r = true := by
  induction rs with
  | nil => simp [validate_versions]
  | cons r rs ih => cases h : record_valid r <;> simp [validate_versions, h, ih]

theorem validate_append_cons_false (pre suf : List VersionRecord) (r : VersionRecord)
    (h : record_valid r = false) :
    validate_versions (pre ++ r :: suf) = false := by
  induction pre with
  | nil => simp [validate_versions, h]
  | cons p pre ih => cases hp : record_valid p <;> simp [validate_versions, hp, ih]

theorem validate_true_versions_present (rs : List VersionRecord)
    (h : validate_versions rs = true) : ∀ r ∈ rs, r.version.isSome = true := by
  intro r hr
  obtain ⟨v, d, hv, _, _, _, _, _⟩ :=
    (record_valid_iff r).mp ((validate_eq_true_iff rs).mp h r hr)
  simp [hv]

/-! ### Dict lemmas -/

theorem lookupAssoc_upsert (m : List (String × String)) (k v q : String) :
    lookupAssoc (upsert m k v) q = if k = q then some v else lookupAssoc m q := by
  induction m with
  | nil => by_cases h : k = q <;> simp [upsert, lookupAssoc, h]
  | cons p m ih =>
    obtain ⟨a, b⟩ := p
    by_cases hak : a = k
    · subst hak
      by_cases haq : a = q <;> simp [upsert, lookupAssoc, haq]
    · by_cases haq : a = q
      · subst haq
        have hkq : ¬ k = a := fun h => hak h.symm
        simp [upsert, hak, lookupAssoc, hkq]
      · simp [upsert, hak, lookupAssoc, haq, ih]

theorem keys_upsert (m : List (String × String)) (k v : String) :
    (upsert m k v).map Prod.fst =
      if k ∈ m.map Prod.fst then m.map Prod.fst else m.map Prod.fst ++ [k] := by
  induction m with
  | nil => simp [upsert]
  | cons p m ih =>
    obtain ⟨a, b⟩ := p
    by_cases hak : a = k
    · subst hak
      simp [upsert]
    · have hka : ¬ k = a := fun h => hak h.symm
      by_cases hk : k ∈ m.map Prod.fst <;>
        simp [upsert, hak, hka, hk, ih]

theorem keys_upsert_nodup (m : List (String × String)) (k v : String)
    (h : (m.map Prod.fst).Nodup) : ((upsert m k v).map Prod.fst).Nodup := by
  rw [keys_upsert]
  by_cases hk : k ∈ m.map Prod.fst
  · simp [hk, h]
  · simp [hk, List.nodup_append, h]

theorem lookupAssoc_isSome_iff (m : List (String × String)) (q : String) :
    (lookupAssoc m q).isSome = true ↔ q ∈ m.map Prod.fst := by
  induction m with
  | nil => simp [lookupAssoc]
  | cons p m ih =>
    obtain ⟨a, b⟩ := p
    by_cases h : a = q
    · simp [lookupAssoc, h]
    · have h' : ¬ q = a := fun hq => h hq.symm
      simp [lookupAssoc, h, h', ih]

/-! ### Generation lemmas -/

theorem genAux_lookup (rs : List VersionRecord) :
    ∀ acc m, genAux acc rs = some m →
      ∀ p, lookupAssoc m p =
        match lastGeneratedContent rs p with
        | some c => some c
        | none => lookupAssoc acc p := by
  induction rs with
  | nil =>
    intro acc m h p
    simp only [genAux, Option.some.injEq] at h
    subst h
    simp [lastGeneratedContent]
  | cons r rs ih =>
    intro acc m h p
    cases hv : r.version with
    | none => simp [genAux, hv] at h
    | some v =>
      have hc : generate_dockerfile_content r =
          some (dockerfileTemplate (r.base_image.getD "ubuntu:20.04") v
            (r.additional_deps.getD "")) := by
        simp [generate_dockerfile_content, hv]
      simp only [genAux, hv, hc] at h
      rw [ih _ m h p]
      cases hl : lastGeneratedContent rs p with
      | some c => simp [lastGeneratedContent, hl]
      | none =>
        simp only [lastGeneratedContent, hl, hv]
        rw [lookupAssoc_upsert]
        by_cases hp : dockerfilePath v = p
        · simp [hp, hc]
        · simp [hp]

theorem genAux_total (rs : List VersionRecord) (h : ∀ r ∈ rs, r.version.isSome = true) :
    ∀ acc, ∃ m, genAux acc rs = some m := by
  induction rs with
  | nil => exact fun acc => ⟨acc, rfl⟩
  | cons r rs ih =>
    intro acc
    have hr := h r (List.mem_cons_self r rs)
    cases hv : r.version with
    | none => rw [hv] at hr; simp at hr
    | some v =>
      have hc : generate_dockerfile_content r =
          some (dockerfileTemplate (r.base_image.getD "ubuntu:20.04") v
            (r.additional_deps.getD "")) := by
        simp [generate_dockerfile_content, hv]
      obtain ⟨m, hm⟩ := ih (fun x hx => h x (List.mem_cons_of_mem r hx))
        (upsert acc (dockerfilePath v)
          (dockerfileTemplate (r.base_image.getD "ubuntu:20.04") v (r.additional_deps.getD "")))
      exact ⟨m, by simp only [genAux, hv, hc]; exact hm⟩

theorem genAux_keys_nodup (rs : List VersionRecord) :
    ∀ acc m, genAux acc rs = some m → (acc.map Prod.fst).Nodup →
      (m.map Prod.fst).Nodup := by
  induction rs with
  | nil =>
    intro acc m h hn
    simp only [genAux, Option.some.injEq] at h
    subst h
    exact hn
  | cons r rs ih =>
    intro acc m h hn
    cases hv : r.version with
    | none => simp [genAux, hv] at h
    | some v =>
      have hc : generate_dockerfile_content r =
          some (dockerfileTemplate (r.base_image.getD "ubuntu:20.04") v
            (r.additional_deps.getD "")) := by
        simp [generate_dockerfile_content, hv]
      simp only [genAux, hv, hc] at h
      exact ih _ m h (keys_upsert_nodup _ _ _ hn)

theorem genAux_keys_docker (rs : List VersionRecord) :
    ∀ acc m, genAux acc rs = some m →
      (∀ p ∈ acc.map Prod.fst, strStartsWith "docker/" p = true) →
      ∀ p ∈ m.map Prod.fst, strStartsWith "docker/" p = true := by
  induction rs with
  | nil =>
    intro acc m h hacc
    simp only [genAux, Option.some.injEq] at h
    subst h
    exact hacc
  | cons r rs ih =>
    intro acc m h hacc
    cases hv : r.version with
    | none => simp [genAux, hv] at h
    | some v =>
      have hc : generate_dockerfile_content r =
          some (dockerfileTemplate (r.base_image.getD "ubuntu:20.04") v
            (r.additional_deps.getD "")) := by
        simp [generate_dockerfile_content, hv]
      simp only [genAux, hv, hc] at h
      refine ih _ m h ?_
      intro p hp
      rw [keys_upsert] at hp
      by_cases hk : dockerfilePath v ∈ acc.map Prod.fst
      · rw [if_pos hk] at hp
        exact hacc p hp
      · rw [if_neg hk] at hp
        rcases List.mem_append.mp hp with h1 | h1
        · exact hacc p h1
        · simp only [List.mem_singleton] at h1
          subst h1
          exact startsWith_dockerfilePath v

theorem lastGeneratedContent_mem (rs : List VersionRecord) (r : VersionRecord)
    (hr : r ∈ rs) (v : String) (hv : r.version = some v) :
    ∃ c, lastGeneratedContent rs (dockerfilePath v) = some c := by
  induction rs with
  | nil => cases hr
  | cons a rs ih =>
    rcases List.mem_cons.mp hr with h1 | h1
    · subst h1
      cases hl : lastGeneratedContent rs (dockerfilePath v) with
      | some c => exact ⟨c, by simp [lastGeneratedContent, hl]⟩
      | none =>
        refine ⟨dockerfileTemplate (r.base_image.getD "ubuntu:20.04") v
          (r.additional_deps.getD ""), ?_⟩
        simp [lastGeneratedContent, hl, hv, generate_dockerfile_content]
    · obtain ⟨c, hc⟩ := ih h1
      exact ⟨c, by simp [lastGeneratedContent, hc]⟩

theorem mem_keys_of_generate (rs : List VersionRecord) (m : List (String × String))
    (h : generate_dockerfiles rs = some m) (r : VersionRecord) (hr : r ∈ rs)
    (v : String) (hv : r.version = some v) :
    dockerfilePath v ∈ m.map Prod.fst := by
  rw [← lookupAssoc_isSome_iff]
  have hlook := genAux_lookup rs [] m h (dockerfilePath v)
  obtain ⟨c, hc⟩ := lastGeneratedContent_mem rs r hr v hv
  rw [hlook, hc]
  rfl

/-! ### Claim C2 -/

/-- C2: `validate_versions` returns `true` iff every record has a present,
non-empty `version` and a present, non-empty `dockerfile_path`, and the
version splits on '.' into exactly 3 integer-parseable parts.  It
short-circuits: one invalid record forces the result `false`, and the
result does not depend on the records after the first invalid one. -/
theorem c2_validate_iff_and_short_circuit :
    (∀ rs : List VersionRecord, validate_versions rs = true ↔
      ∀ r ∈ rs, ∃ v d, r.version = some v ∧ v ≠ "" ∧
        r.dockerfile_path = some d ∧ d ≠ "" ∧
        (pySplitDot v.data []).length = 3 ∧
        ∀ p ∈ pySplitDot v.data [], pyIntParseable p = true) ∧
    (∀ pre suf suf' : List VersionRecord, ∀ r : VersionRecord,
      record_valid r = false →
      validate_versions (pre ++ r :: suf) = false ∧
      validate_versions (pre ++ r :: suf) = validate_versions (pre ++ r :: suf')) := by
  constructor
  · intro rs
    rw [validate_eq_true_iff]
    constructor
    · intro h r hr
      exact (record_valid_iff r).mp (h r hr)
    · intro h r hr
      exact (record_valid_iff r).mpr (h r hr)
  · intro pre suf suf' r h
    refine ⟨validate_append_cons_false pre suf r h, ?_⟩
    rw [validate_append_cons_false pre suf r h, validate_append_cons_false pre suf' r h]

theorem c2_validate_iff_and_short_circuit_witness :
    validate_versions [(⟨some "1.2.3", some "x", none, none⟩ : VersionRecord)] = true ∧
    validate_versions
      ((⟨some "1.2.3", some "x", none, none⟩ : VersionRecord) ::
        (⟨some "1.14", some "x", none, none⟩ : VersionRecord) ::
        [(⟨some "9.9.9", some "y", none, none⟩ : VersionRecord)]) = false := by
  constructor
  · exact (c2_validate_iff_and_short_circuit.1 _).mpr (by
      intro r hr
      simp only [List.mem_singleton] at hr
      subst hr
      exact ⟨"1.2.3", "x", rfl, by decide, rfl, by decide, by decide, by decide⟩)
  · exact (c2_validate_iff_and_short_circuit.2
      [⟨some "1.2.3", some "x", none, none⟩] [⟨some "9.9.9", some "y", none, none⟩] []
      ⟨some "1.14", some "x", none, none⟩ (by decide)).1

/-! ### Claim C4 -/

/-- C4 counterexample: a version whose middle dot-separated part denotes a
negative integer is accepted by `validate_versions` (Python `int("-2")`
parses), contradicting the claim that validation then returns false. -/
theorem c4_counterexample :
    validate_versions [(⟨some "1.-2.3", some "x", none, none⟩ : VersionRecord)] = true := by
  decide

/-- C4 amended: a single-record batch with a non-empty version `v` and a
non-empty `dockerfile_path` validates iff `v` splits on '.' into exactly 3
parts, each parseable by Python `int` — which accepts an optional sign, so
the negative part "-2" is also accepted. -/
theorem c4_amended (v : String) (hv : v ≠ "") :
    (validate_versions [(⟨some v, some "x", none, none⟩ : VersionRecord)] = true ↔
      (pySplitDot v.data []).length = 3 ∧
        ∀ p ∈ pySplitDot v.data [], pyIntParseable p = true) ∧
    pyIntParseable ['-', '2'] = true := by
  refine ⟨?_, by decide⟩
  rw [validate_eq_true_iff]
  constructor
  · intro h
    obtain ⟨v', d', hv', hv'ne, hd', hd'ne, h3, hall⟩ :=
      (record_valid_iff _).mp (h _ (List.mem_singleton_self _))
    have : v = v' := by
      have := hv'
      simp only [Option.some.injEq] at this
      exact this
    subst this
    exact ⟨h3, hall⟩
  · rintro ⟨h3, hall⟩ r hr
    simp only [List.mem_singleton] at hr
    subst hr
    exact (record_valid_iff _).mpr ⟨v, "x", rfl, hv, rfl, by decide, h3, hall⟩

theorem c4_amended_witness :
    validate_versions [(⟨some "7.-8.9", some "x", none, none⟩ : VersionRecord)] = true :=
  (c4_amended "7.-8.9" (by decide)).1.mpr (by decide)

/-! ### Claim C1 -/

/-- C1 counterexample: with `base_image` present but equal to the empty
string, the generated content differs from the content generated with
`base_image` absent — `.get('base_image', 'ubuntu:20.04')` substitutes the
default only for an absent key, never for the empty string. -/
theorem c1_counterexample :
    generate_dockerfile_content (⟨some "1.14.23", some "x", some "", none⟩ : VersionRecord) ≠
      generate_dockerfile_content (⟨some "1.14.23", some "x", none, none⟩ : VersionRecord) := by
  decide

/-- C1 amended: the fixed default `"ubuntu:20.04"` is substituted at the
base-image template point only when `base_image` is absent; whenever the
field is present — including as the empty string — the present value is
substituted verbatim. -/
theorem c1_amended (r : VersionRecord) (v : String) (h : r.version = some v) :
    (r.base_image = none →
      generate_dockerfile_content r =
        some (dockerfileTemplate "ubuntu:20.04" v (r.additional_deps.getD ""))) ∧
    ∀ b, r.base_image = some b →
      generate_dockerfile_content r =
        some (dockerfileTemplate b v (r.additional_deps.getD "")) := by
  constructor
  · intro hb
    simp [generate_dockerfile_content, h, hb]
  · intro b hb
    simp [generate_dockerfile_content, h, hb]

theorem c1_amended_witness :
    generate_dockerfile_content (⟨some "2.0.0", some "x", some "", none⟩ : VersionRecord) =
      some (dockerfileTemplate "" "2.0.0" "") :=
  (c1_amended _ "2.0.0" rfl).2 "" rfl

/-! ### Claim C6 -/

/-- C6: for a record with version `v` the derived output path is exactly
the concatenation "docker/v" ++ v ++ ".Dockerfile", and it depends only on
the `version` field: two records sharing a version but with arbitrary
other fields generate the same path list. -/
theorem c6_path_determinism (r₁ r₂ : VersionRecord) (v : String)
    (h₁ : r₁.version = some v) (h₂ : r₂.version = some v) :
    dockerfilePath v = "docker/v" ++ v ++ ".Dockerfile" ∧
    (generate_dockerfiles [r₁]).map (fun m => m.map Prod.fst) = some [dockerfilePath v] ∧
    (generate_dockerfiles [r₁]).map (fun m => m.map Prod.fst) =
      (generate_dockerfiles [r₂]).map (fun m => m.map Prod.fst) := by
  refine ⟨rfl, ?_, ?_⟩
  · simp [generate_dockerfiles, genAux, h₁, generate_dockerfile_content, upsert]
  · simp [generate_dockerfiles, genAux, h₁, h₂, generate_dockerfile_content, upsert]

theorem c6_path_determinism_witness :
    (generate_dockerfiles [(⟨some "1.4.9", some "a", none, none⟩ : VersionRecord)]).map
        (fun m => m.map Prod.fst) = some [dockerfilePath "1.4.9"] :=
  ((c6_path_determinism ⟨some "1.4.9", some "a", none, none⟩
      ⟨some "1.4.9", some "b", some "img", some "deps"⟩ "1.4.9" rfl rfl).2).1

/-! ### Claim C9 -/

/-- C9: generation is a pure function of the record sequence — two runs on
equal record sequences yield equal path-to-content mappings and equal
write outcomes. -/
theorem c9_generation_deterministic (rs₁ rs₂ : List VersionRecord) (h : rs₁ = rs₂) :
    generate_dockerfiles rs₁ = generate_dockerfiles rs₂ ∧
    (write_dockerfiles rs₁ "docker").files = (write_dockerfiles rs₂ "docker").files := by
  subst h
  exact ⟨rfl, rfl⟩

theorem c9_generation_deterministic_witness :
    generate_dockerfiles [(⟨some "3.3.3", some "x", none, none⟩ : VersionRecord)] =
      generate_dockerfiles [(⟨some "3.3.3", some "x", none, none⟩ : VersionRecord)] :=
  (c9_generation_deterministic _ _ rfl).1

/-! ### Claim C10 -/

/-- C10: noninterference of `dockerfile_path` — two records agreeing on
`version`, `base_image` and `additional_deps` but carrying different
non-empty `dockerfile_path` values generate identical content and
identical path-to-content mappings. -/
theorem c10_dockerfile_path_noninterference (r₁ r₂ : VersionRecord) (d₁ d₂ : String)
    (hv : r₁.version = r₂.version) (hb : r₁.base_image = r₂.base_image)
    (ha : r₁.additional_deps = r₂.additional_deps)
    (h₁ : r₁.dockerfile_path = some d₁) (h₂ : r₂.dockerfile_path = some d₂)
    (hd₁ : d₁ ≠ "") (hd₂ : d₂ ≠ "") (hne : d₁ ≠ d₂) :
    generate_dockerfile_content r₁ = generate_dockerfile_content r₂ ∧
    generate_dockerfiles [r₁] = generate_dockerfiles [r₂] := by
  obtain ⟨v₁, p₁, b₁, a₁⟩ := r₁
  obtain ⟨v₂, p₂, b₂, a₂⟩ := r₂
  dsimp only at hv hb ha h₁ h₂
  subst hv hb ha
  exact ⟨rfl, rfl⟩

theorem c10_dockerfile_path_noninterference_witness :
    generate_dockerfile_content
        (⟨some "5.5.5", some "a.Dockerfile", some "img", some "deps"⟩ : VersionRecord) =
      generate_dockerfile_content
        (⟨some "5.5.5", some "b.Dockerfile", some "img", some "deps"⟩ : VersionRecord) :=
  (c10_dockerfile_path_noninterference
    ⟨some "5.5.5", some "a.Dockerfile", some "img", some "deps"⟩
    ⟨some "5.5.5", some "b.Dockerfile", some "img", some "deps"⟩
    "a.Dockerfile" "b.Dockerfile"
    rfl rfl rfl rfl rfl (by decide) (by decide) (by decide)).1

/-! ### Claim C3 -/

/-- C3: no partial success — when validation fails, the run aborts before
the write phase and writes nothing; when validation succeeds, the write
phase runs and a file is written at every record's derived path. -/
theorem c3_no_partial_success (rs : List VersionRecord) :
    (validate_versions rs = false → main_process rs = none) ∧
    (validate_versions rs = true →
      main_process rs = some (write_dockerfiles rs "docker") ∧
      ((write_dockerfiles rs "docker").files).isSome = true ∧
      ∀ m, (write_dockerfiles rs "docker").files = some m →
        ∀ r ∈ rs, ∀ v, r.version = some v → dockerfilePath v ∈ m.map Prod.fst) := by
  constructor
  · intro h
    simp [main_process, h]
  · intro h
    refine ⟨by simp [main_process, h], ?_, ?_⟩
    · obtain ⟨m, hm⟩ := genAux_total rs (validate_true_versions_present rs h) []
      simp [write_dockerfiles, generate_dockerfiles, hm]
    · intro m hm r hr v hv
      exact mem_keys_of_generate rs m hm r hr v hv

theorem c3_no_partial_success_witness :
    main_process [(⟨some "1.14", some "x", none, none⟩ : VersionRecord)] = none ∧
    main_process [(⟨some "8.8.8", some "x", none, none⟩ : VersionRecord)] =
      some (write_dockerfiles [(⟨some "8.8.8", some "x", none, none⟩ : VersionRecord)]
        "docker") := by
  constructor
  · exact (c3_no_partial_success _).1 (by decide)
  · exact ((c3_no_partial_success _).2 (by decide)).1

/-! ### Claim C7 -/

/-- C7 counterexample: with output directory "out" passed to the write
phase, the single written file still lands at a path starting with
"docker/", not below "out" — the generated mapping's keys, not the
`output_dir` argument, decide where files are written. -/
theorem c7_counterexample :
    (write_dockerfiles [(⟨some "1.2.3", some "x", none, none⟩ : VersionRecord)] "out").files =
      some [(dockerfilePath "1.2.3", dockerfileTemplate "ubuntu:20.04" "1.2.3" "")] ∧
    strStartsWith "out" (dockerfilePath "1.2.3") = false := by
  exact ⟨rfl, by decide⟩

/-- C7 amended: `write_dockerfiles` uses its `output_dir` argument only for
the directory it creates; every file is written at the generated mapping's
own key, and those keys always lie under the fixed "docker/" root,
whatever `output_dir` was passed. -/
theorem c7_amended (rs : List VersionRecord) (output_dir : String)
    (m : List (String × String))
    (h : (write_dockerfiles rs output_dir).files = some m) :
    (write_dockerfiles rs output_dir).created_dir = output_dir ∧
    ∀ p ∈ m.map Prod.fst, strStartsWith "docker/" p = true := by
  refine ⟨rfl, ?_⟩
  have hg : generate_dockerfiles rs = some m := h
  exact genAux_keys_docker rs [] m hg (by simp)

theorem c7_amended_witness :
    (write_dockerfiles [(⟨some "6.0.1", some "x", none, none⟩ : VersionRecord)]
        "out").created_dir = "out" :=
  (c7_amended [(⟨some "6.0.1", some "x", none, none⟩ : VersionRecord)] "out"
    [(dockerfilePath "6.0.1", dockerfileTemplate "ubuntu:20.04" "6.0.1" "")] rfl).1

/-! ### Claim C8 -/

/-- C8: in the generated mapping, each record's derived path occurs exactly
once as a key, and the content stored at any path is the content generated
from the last input record deriving that path — last-write-wins on
duplicate versions, with no duplicate detection. -/
theorem c8_last_write_wins (rs : List VersionRecord) (m : List (String × String))
    (h : generate_dockerfiles rs = some m) :
    (∀ r ∈ rs, ∀ v, r.version = some v →
      (m.map Prod.fst).count (dockerfilePath v) = 1) ∧
    ∀ p, lookupAssoc m p = lastGeneratedContent rs p := by
  constructor
  · intro r hr v hv
    have hnodup : (m.map Prod.fst).Nodup := genAux_keys_nodup rs [] m h (by simp)
    exact List.count_eq_one_of_mem hnodup (mem_keys_of_generate rs m h r hr v hv)
  · intro p
    rw [genAux_lookup rs [] m h p]
    cases lastGeneratedContent rs p <;> simp [lookupAssoc]

theorem c8_last_write_wins_witness :
    (generate_dockerfiles
        ((⟨some "1.2.3", some "x", none, some "RUN echo a"⟩ : VersionRecord) ::
          [(⟨some "1.2.3", some "y", none, some "RUN echo b"⟩ : VersionRecord)])).map
      (fun m => (m.map Prod.fst).count (dockerfilePath "1.2.3")) = some 1 := by
  cases hm : generate_dockerfiles
      ((⟨some "1.2.3", some "x", none, some "RUN echo a"⟩ : VersionRecord) ::
        [(⟨some "1.2.3", some "y", none, some "RUN echo b"⟩ : VersionRecord)]) with
  | none => exact absurd hm (by decide)
  | some m =>
    have hc := (c8_last_write_wins _ m hm).1
      ⟨some "1.2.3", some "y", none, some "RUN echo b"⟩
      (List.mem_cons_of_mem _ (List.mem_cons_self _ _)) "1.2.3" rfl
    simp [hc]

/-! ### Substring-count lemmas -/

theorem countOccur_pos (n hay : List Char) (h : n.isPrefixOf hay = true) :
    1 ≤ countOccur n hay := by
  cases hay with
  | nil => simp [countOccur, h]
  | cons c rest => simp [countOccur, h]

theorem countOccur_infix_pos (n x y : List Char) :
    1 ≤ countOccur n (x ++ (n ++ y)) := by
  induction x with
  | nil =>
    rw [List.nil_append]
    exact countOccur_pos n (n ++ y) (isPrefixOf_append_self n y)
  | cons c cs ih =>
    rw [List.cons_append]
    refine le_trans ih ?_
    simp only [countOccur]
    exact Nat.le_add_left _ _

/-! ### Claim C5 -/

/-- C5 counterexample: for the concrete scenario record (version
"1.14.23", base_image "ubuntu:22.04") the generated content contains
exactly one occurrence of "v1.14.23", not the two URL-fragment
occurrences the claim asserts. -/
theorem c5_counterexample :
    (generate_dockerfile_content
        (⟨some "1.14.23", some "ignored", some "ubuntu:22.04", none⟩ : VersionRecord)).map
      (fun content => countOccur "v1.14.23".data content.data) = some 1 := by
  decide

/-- C5 amended: the generated content embeds the version in exactly one
download-URL fragment, besides the one comment occurrence: for every
record the content contains the URL fragment
"https://release.solana.com/v" ++ v ++ "/install" and the comment fragment
"# Install Solana CLI version " ++ v, and in the concrete scenario
"v1.14.23" occurs exactly once while "1.14.23" occurs exactly twice. -/
theorem c5_amended (bi v ad : String) :
    1 ≤ countOccur ("https://release.solana.com/v" ++ v ++ "/install").data
        (dockerfileTemplate bi v ad).data ∧
    1 ≤ countOccur ("# Install Solana CLI version " ++ v).data
        (dockerfileTemplate bi v ad).data ∧
    countOccur "v1.14.23".data (dockerfileTemplate "ubuntu:22.04" "1.14.23" "").data = 1 ∧
    countOccur "1.14.23".data (dockerfileTemplate "ubuntu:22.04" "1.14.23" "").data = 2 := by
  refine ⟨?_, ?_, by decide, by decide⟩
  · have h3 : ("\nRUN apt-get update && apt-get install -y \\\n    curl \\\n    build-essential \\\n    pkg-config \\\n    libudev-dev \\\n    && rm -rf /var/lib/apt/lists/*\n\n# Install Rust\nRUN curl --proto \x27=https\x27 --tlsv1.2 -sSf https://sh.rustup.rs | sh -s -- -y\nENV PATH=\"/root/.cargo/bin:$\x7bPATH\x7d\"\n\n# Install Solana CLI\nRUN sh -c \"$(curl -sSfL https://release.solana.com/v" : String) =
        "\nRUN apt-get update && apt-get install -y \\\n    curl \\\n    build-essential \\\n    pkg-config \\\n    libudev-dev \\\n    && rm -rf /var/lib/apt/lists/*\n\n# Install Rust\nRUN curl --proto \x27=https\x27 --tlsv1.2 -sSf https://sh.rustup.rs | sh -s -- -y\nENV PATH=\"/root/.cargo/bin:$\x7bPATH\x7d\"\n\n# Install Solana CLI\nRUN sh -c \"$(curl -sSfL " ++
          "https://release.solana.com/v" := by decide
    have h4 : ("/install)\"\nENV PATH=\"/root/.local/share/solana/install/active_release/bin:$\x7bPATH\x7d\"\n\n# Install additional dependencies if specified\n" : String) =
        "/install" ++
          ")\"\nENV PATH=\"/root/.local/share/solana/install/active_release/bin:$\x7bPATH\x7d\"\n\n# Install additional dependencies if specified\n" := by decide
    have hdata : (dockerfileTemplate bi v ad).data =
        ("FROM ".data ++ bi.data ++ "\n\n# Install Solana CLI version ".data ++ v.data ++
            "\nRUN apt-get update && apt-get install -y \\\n    curl \\\n    build-essential \\\n    pkg-config \\\n    libudev-dev \\\n    && rm -rf /var/lib/apt/lists/*\n\n# Install Rust\nRUN curl --proto \x27=https\x27 --tlsv1.2 -sSf https://sh.rustup.rs | sh -s -- -y\nENV PATH=\"/root/.cargo/bin:$\x7bPATH\x7d\"\n\n# Install Solana CLI\nRUN sh -c \"$(curl -sSfL ".data) ++
          (("https://release.solana.com/v".data ++ (v.data ++ "/install".data)) ++
            (")\"\nENV PATH=\"/root/.local/share/solana/install/active_release/bin:$\x7bPATH\x7d\"\n\n# Install additional dependencies if specified\n".data ++
              ad.data ++ "\n\nWORKDIR /workspace\n".data)) := by
      simp [dockerfileTemplate, h3, h4, String.data_append, List.append_assoc]
    have hn : ("https://release.solana.com/v" ++ v ++ "/install").data =
        "https://release.solana.com/v".data ++ (v.data ++ "/install".data) := by
      simp [String.data_append, List.append_assoc]
    rw [hn, hdata]
    exact countOccur_infix_pos _ _ _
  · have h2 : ("\n\n# Install Solana CLI version " : String) =
        "\n\n" ++ "# Install Solana CLI version " := by decide
    have hdata : (dockerfileTemplate bi v ad).data =
        ("FROM ".data ++ bi.data ++ "\n\n".data) ++
          (("# Install Solana CLI version ".data ++ v.data) ++
            ("\nRUN apt-get update && apt-get install -y \\\n    curl \\\n    build-essential \\\n    pkg-config \\\n    libudev-dev \\\n    && rm -rf /var/lib/apt/lists/*\n\n# Install Rust\nRUN curl --proto \x27=https\x27 --tlsv1.2 -sSf https://sh.rustup.rs | sh -s -- -y\nENV PATH=\"/root/.cargo/bin:$\x7bPATH\x7d\"\n\n# Install Solana CLI\nRUN sh -c \"$(curl -sSfL https://release.solana.com/v".data ++
              v.data ++
              "/install)\"\nENV PATH=\"/root/.local/share/solana/install/active_release/bin:$\x7bPATH\x7d\"\n\n# Install additional dependencies if specified\n".data ++
              ad.data ++ "\n\nWORKDIR /workspace\n".data)) := by
      simp [dockerfileTemplate, h2, String.data_append, List.append_assoc]
    have hm : ("# Install Solana CLI version " ++ v).data =
        "# Install Solana CLI version ".data ++ v.data := by
      simp [String.data_append]
    rw [hm, hdata]
    exact countOccur_infix_pos _ _ _

theorem c5_amended_witness :
    1 ≤ countOccur ("https://release.solana.com/v" ++ "4.5.6" ++ "/install").data
        (dockerfileTemplate "img" "4.5.6" "extra").data :=
  (c5_amended "img" "4.5.6" "extra").1

end ProcessCsv
